import Mathlib

/-!
Verification of `src/wifimanager.c`: Wi-Fi station bring-up, the wait for an
address, and teardown.

The embedding is shallow.  C strings are lists of characters (the terminating
NUL is implicit), `esp_netif_t *` and `SemaphoreHandle_t` are options (`none` is
`NULL`), the statics of the module and the part of the platform the code can
observe form one record, and every routine is a function from that record to
an outcome: it returns, it aborts, or it never returns.  The platform is not
part of the file; what its calls answer is a parameter of every routine.
-/

namespace WifiManager

/-! ## C strings -/

/-- A C string: its characters before the terminating NUL. -/
abbrev CStr := List Char

/-- The width of `size_t` on the target: 32 bits. -/
def SIZE_BITS : Nat := 32

/-- The C library's `strlen`. -/
def strlen (s : CStr) : Nat := s.length

/-- The C library's `strncmp(s1, s2, n)`: compares at most `n` characters and
stops at the first difference or at the end of either string; the result is the
difference of the two characters where the strings first differ (the
terminating NUL counts as 0). -/
def strncmp : CStr → CStr → Nat → Int
  | [], [], _ => 0
  | [], b :: _, n => if n = 0 then 0 else 0 - (b.toNat : Int)
  | a :: _, [], n => if n = 0 then 0 else (a.toNat : Int)
  | a :: s1, b :: s2, n =>
    if n = 0 then 0
    else if a = b then strncmp s1 s2 (n - 1)
    else (a.toNat : Int) - (b.toNat : Int)

/-- The C library's `strcmp(s1, s2)`. -/
def strcmp : CStr → CStr → Int
  | [], [] => 0
  | [], b :: _ => 0 - (b.toNat : Int)
  | a :: _, [] => (a.toNat : Int)
  | a :: s1, b :: s2 =>
    if a = b then strcmp s1 s2 else (a.toNat : Int) - (b.toNat : Int)

/-- Line 25: `static const char *TAG = "wifimanager";`. -/
def TAG : CStr := "wifimanager".toList

/-- The result of `asprintf(&out, "%s: %s", a, b)`, used at lines 174 and 237. -/
def asprintf_colon (a b : CStr) : CStr := a ++ ": ".toList ++ b

/-- Lines 60-63.  `strlen(prefix) - 1` is computed in `size_t`, so it wraps to
`SIZE_MAX` for the empty prefix.  The second argument is the description
`esp_netif_get_desc(netif)` of the netif. -/
def is_our_netif (pfx : CStr) (desc : CStr) : Bool :=
  strncmp pfx desc ((strlen pfx + 2 ^ SIZE_BITS - 1) % 2 ^ SIZE_BITS) == 0

/-! ## Error codes and the abort macro -/

/-- The SDK's `esp_err_t`. -/
abbrev esp_err_t := Int

/-- The SDK's `ESP_OK` (esp_err.h). -/
def ESP_OK : esp_err_t := 0

/-- The SDK's `ESP_FAIL` (esp_err.h). -/
def ESP_FAIL : esp_err_t := -1

/-- The SDK's `ESP_ERR_INVALID_STATE` (esp_err.h). -/
def ESP_ERR_INVALID_STATE : esp_err_t := 0x103

/-- The SDK's `ESP_ERR_WIFI_NOT_INIT` (esp_wifi.h: `ESP_ERR_WIFI_BASE + 1`). -/
def ESP_ERR_WIFI_NOT_INIT : esp_err_t := 0x3001

/-- The SDK's `ESP_ERR_WIFI_NOT_STARTED` (esp_wifi.h: `ESP_ERR_WIFI_BASE + 2`). -/
def ESP_ERR_WIFI_NOT_STARTED : esp_err_t := 0x3002

/-! ## The module's statics and the platform state it observes -/

/-- An `esp_netif_t *`: `none` is `NULL`, `some h` the address of a netif. -/
abbrev Ptr := Option Nat

/-- A netif of the platform's network stack: its address and the description
that `esp_netif_get_desc` returns for it. -/
structure Netif where
  handle : Nat
  desc : CStr
  deriving DecidableEq, Repr

/-- The FreeRTOS counting semaphore behind a `SemaphoreHandle_t`. -/
structure Semaphore where
  uxMaxCount : Nat
  uxCount : Nat
  deriving DecidableEq, Repr

/-- The two events the module registers handlers for (lines 181-182). -/
inductive EventId where
  | WIFI_EVENT_STA_DISCONNECTED
  | IP_EVENT_STA_GOT_IP
  deriving DecidableEq, Repr

/-- The payload of a got-IP event, `ip_event_got_ip_t`: the netif that got the
address and the address. -/
structure ip_event_got_ip_t where
  esp_netif : Netif
  ip : Nat
  deriving DecidableEq, Repr

/-- One delivery of the default event loop to a handler of this module:
a got-IP event handed to `on_got_ip`, or a station-disconnected event handed to
`on_wifi_disconnect`, together with the value that the handler's
`esp_wifi_connect` call is going to return. -/
inductive Event where
  | got_ip (event_data : ip_event_got_ip_t)
  | sta_disconnected (connect_result : esp_err_t)
  deriving DecidableEq, Repr

/-- The platform calls that act on the platform (queries such as
`esp_netif_next` and `esp_netif_get_desc` are not listed). -/
inductive SdkCall where
  | nvs_flash_init
  | esp_netif_init
  | esp_event_loop_create_default
  | esp_wifi_init
  | esp_netif_create_wifi (if_desc : CStr)
  | esp_wifi_set_default_wifi_sta_handlers
  | esp_event_handler_register (id : EventId)
  | esp_event_handler_unregister (id : EventId)
  | esp_wifi_set_storage
  | esp_wifi_set_mode
  | esp_wifi_set_config
  | esp_wifi_start
  | esp_wifi_connect
  | esp_wifi_stop
  | esp_wifi_deinit
  | esp_wifi_clear_default_wifi_driver_and_handlers
  | esp_netif_destroy (netif : Ptr)
  | esp_netif_get_ip_info (netif : Nat)
  | esp_register_shutdown_handler
  | esp_unregister_shutdown_handler
  | xSemaphoreCreateCounting (uxMaxCount uxInitialCount : Nat)
  | xSemaphoreGive
  | xSemaphoreTake
  | vSemaphoreDelete
  deriving DecidableEq, Repr

/-- The statics of the module (lines 27-29 and 83) and what the code can see of
the platform: the netif list in `esp_netif_next` order, the deliveries the event
loop still has to make while the calling task is blocked, and the platform calls
made so far.  The semaphore that `s_semph_get_ip_addrs` points to is kept with
the handle.  `s_active_interfaces` is an `int`; the statements that depend on
its increment keep it below `INT_MAX`. -/
structure World where
  s_active_interfaces : Int
  s_semph_get_ip_addrs : Option Semaphore
  s_example_esp_netif : Ptr
  s_ip_addr : Nat
  netifs : List Netif
  events : List Event
  calls : List SdkCall
  deriving DecidableEq, Repr

/-- The state at program start: the statics are zero-initialised, no platform
call has been made. -/
def init_world (netifs : List Netif) (events : List Event) : World :=
  { s_active_interfaces := 0, s_semph_get_ip_addrs := none, s_example_esp_netif := none,
    s_ip_addr := 0, netifs := netifs, events := events, calls := [] }

/-- What the platform answers during one run of a routine: the error code of
each call that returns one, the pointer `esp_netif_create_wifi` returns, and
whether `xSemaphoreCreateCounting` finds memory. -/
structure Env where
  result : SdkCall → esp_err_t
  create_wifi : Ptr
  sem_alloc : Bool

/-- Build configuration.  `EXAMPLE_DO_CONNECT` is tested by `#if` at line 101
and defined nowhere in `wifimanager.c`; its value is a parameter (`false` when
it is undefined or 0). -/
structure Config where
  EXAMPLE_DO_CONNECT : Bool
  deriving DecidableEq, Repr

/-- How a routine ends: it returns a value in a new state, it aborts
(`abort()` from `ESP_ERROR_CHECK` or a failed platform assertion), it never
returns (blocked for ever on the semaphore, or in the final delay loop of
`wifiTask`), or the loop bound of the model was too small. -/
inductive Outcome (α : Type) where
  | returned (a : α) (w : World)
  | aborted
  | never_returns
  | nofuel
  deriving DecidableEq, Repr

/-- Sequencing of outcomes. -/
def Outcome.bind {α β : Type} (o : Outcome α) (f : α → World → Outcome β) : Outcome β :=
  match o with
  | .returned a w => f a w
  | .aborted => .aborted
  | .never_returns => .never_returns
  | .nofuel => .nofuel

/-- A routine: a function from the state to an outcome. -/
def M (α : Type) : Type := World → Outcome α

instance : Monad M where
  pure a := fun w => .returned a w
  bind m f := fun w => (m w).bind f

/-- Read the state. -/
def getW : M World := fun w => .returned w w

/-- Assign to statics. -/
def modifyW (f : World → World) : M Unit := fun w => .returned () (f w)

/-- A platform call that returns an error code: the call is recorded and the
platform's answer returned. -/
def sdk (env : Env) (c : SdkCall) : M esp_err_t := fun w =>
  .returned (env.result c) { w with calls := w.calls ++ [c] }

/-- A platform call whose answer is given: the call is recorded and the answer
returned. -/
def sdk_returning (c : SdkCall) (e : esp_err_t) : M esp_err_t := fun w =>
  .returned e { w with calls := w.calls ++ [c] }

/-- A platform call that returns nothing. -/
def sdk_void (c : SdkCall) : M Unit := fun w =>
  .returned () { w with calls := w.calls ++ [c] }

/-- The SDK's `ESP_ERROR_CHECK(x)`: evaluates `x` and aborts unless it is
`ESP_OK`. -/
def ESP_ERROR_CHECK (x : M esp_err_t) : M Unit := do
  let err_rc ← x
  if err_rc = ESP_OK then pure () else fun _ => .aborted

/-- The platform's `esp_netif_create_wifi(WIFI_IF_STA, &cfg)`: returns the
pointer the platform chooses; a netif that was created joins the end of the
netif list with the description of the configuration. -/
def esp_netif_create_wifi (env : Env) (if_desc : CStr) : M Ptr := fun w =>
  .returned env.create_wifi
    { w with
      netifs := (match env.create_wifi with
        | some h => w.netifs ++ [{ handle := h, desc := if_desc }]
        | none => w.netifs),
      calls := w.calls ++ [.esp_netif_create_wifi if_desc] }

/-- The platform's `esp_netif_destroy(netif)`: the netif leaves the list. -/
def esp_netif_destroy (netif : Ptr) : M Unit := fun w =>
  .returned ()
    { w with
      netifs := (match netif with
        | some h => w.netifs.filter (fun n => n.handle ≠ h)
        | none => w.netifs),
      calls := w.calls ++ [.esp_netif_destroy netif] }

/-- The conversion of an `int` to the 32-bit `UBaseType_t`. -/
def to_UBaseType (x : Int) : Nat := (x % 2 ^ 32).toNat

/-- FreeRTOS `xSemaphoreCreateCounting(uxMaxCount, uxInitialCount)`: a new
semaphore, or `NULL` without memory. -/
def xSemaphoreCreateCounting (env : Env) (uxMaxCount uxInitialCount : Nat) :
    M (Option Semaphore) := fun w =>
  .returned
    (if env.sem_alloc then some { uxMaxCount := uxMaxCount, uxCount := uxInitialCount } else none)
    { w with calls := w.calls ++ [.xSemaphoreCreateCounting uxMaxCount uxInitialCount] }

/-- FreeRTOS `xSemaphoreGive(s_semph_get_ip_addrs)`: the count goes up by one
unless it is at its maximum; a `NULL` handle fails the assertion on the handle. -/
def xSemaphoreGive : M Unit := fun w =>
  match w.s_semph_get_ip_addrs with
  | none => .aborted
  | some s =>
    .returned ()
      { w with
        s_semph_get_ip_addrs :=
          some (if s.uxCount < s.uxMaxCount then { s with uxCount := s.uxCount + 1 } else s),
        calls := w.calls ++ [.xSemaphoreGive] }

/-! ## The routines of wifimanager.c -/

/-- The `if_desc` of `ESP_NETIF_INHERENT_DEFAULT_WIFI_STA()` (SDK, esp_netif_defaults.h). -/
def DEFAULT_WIFI_STA_if_desc : CStr := "sta".toList

/-- Lines 165-205. -/
def wifi_start (env : Env) : M Ptr := do
  ESP_ERROR_CHECK (sdk env .esp_wifi_init)
  let desc := asprintf_colon TAG DEFAULT_WIFI_STA_if_desc
  let netif ← esp_netif_create_wifi env desc
  let _ ← sdk env .esp_wifi_set_default_wifi_sta_handlers
  ESP_ERROR_CHECK (sdk env (.esp_event_handler_register .WIFI_EVENT_STA_DISCONNECTED))
  ESP_ERROR_CHECK (sdk env (.esp_event_handler_register .IP_EVENT_STA_GOT_IP))
  ESP_ERROR_CHECK (sdk env .esp_wifi_set_storage)
  ESP_ERROR_CHECK (sdk env .esp_wifi_set_mode)
  ESP_ERROR_CHECK (sdk env .esp_wifi_set_config)
  ESP_ERROR_CHECK (sdk env .esp_wifi_start)
  let _ ← sdk env .esp_wifi_connect
  pure netif

/-- The loop of lines 238-245 over the netif list in `esp_netif_next` order:
`esp_netif_next(NULL)` is the head of the list and `esp_netif_next` of a netif
is the head of what follows it; the loop ends with `NULL` behind the last one. -/
def netif_search (expected_desc : CStr) : List Netif → Ptr
  | [] => none
  | n :: rest =>
    if strcmp n.desc expected_desc = 0 then some n.handle
    else netif_search expected_desc rest

/-- Lines 233-248, on the netif list. -/
def get_example_netif_from_desc_in (netifs : List Netif) (desc : CStr) : Ptr :=
  netif_search (asprintf_colon TAG desc) netifs

/-- Lines 233-248. -/
def get_example_netif_from_desc (desc : CStr) : M Ptr := fun w =>
  .returned (get_example_netif_from_desc_in w.netifs desc) w

/-- Lines 228-231. -/
def get_example_netif : M Ptr := fun w => .returned w.s_example_esp_netif w

/-- Lines 207-226. -/
def wifi_stop (env : Env) : M Unit := do
  let wifi_netif ← get_example_netif_from_desc "sta".toList
  ESP_ERROR_CHECK (sdk env (.esp_event_handler_unregister .WIFI_EVENT_STA_DISCONNECTED))
  ESP_ERROR_CHECK (sdk env (.esp_event_handler_unregister .IP_EVENT_STA_GOT_IP))
  let err ← sdk env .esp_wifi_stop
  if err = ESP_ERR_WIFI_NOT_INIT then
    pure ()
  else do
    ESP_ERROR_CHECK (pure err)
    ESP_ERROR_CHECK (sdk env .esp_wifi_deinit)
    ESP_ERROR_CHECK (sdk env .esp_wifi_clear_default_wifi_driver_and_handlers)
    esp_netif_destroy wifi_netif
    modifyW (fun w => { w with s_example_esp_netif := none })

/-- Lines 66-74. -/
def start (env : Env) : M Unit := do
  let netif ← wifi_start env
  modifyW (fun w => { w with s_example_esp_netif := netif })
  modifyW (fun w => { w with s_active_interfaces := w.s_active_interfaces + 1 })
  let w ← getW
  let sem ← xSemaphoreCreateCounting env (to_UBaseType w.s_active_interfaces) 0
  modifyW (fun w => { w with s_semph_get_ip_addrs := sem })

/-- Lines 77-81. -/
def stop (env : Env) : M Unit := do
  wifi_stop env
  modifyW (fun w => { w with s_active_interfaces := w.s_active_interfaces - 1 })

/-- Lines 85-97. -/
def on_got_ip (event : ip_event_got_ip_t) : M Unit := do
  if !is_our_netif TAG event.esp_netif.desc then
    pure ()
  else do
    modifyW (fun w => { w with s_ip_addr := event.ip })
    xSemaphoreGive

/-- Lines 153-163; `err` is what the handler's `esp_wifi_connect` returns. -/
def on_wifi_disconnect (err : esp_err_t) : M Unit := do
  let err ← sdk_returning .esp_wifi_connect err
  if err = ESP_ERR_WIFI_NOT_STARTED then
    pure ()
  else
    ESP_ERROR_CHECK (pure err)

/-- The event loop hands one event to the handler registered for it. -/
def dispatch (e : Event) : M Unit :=
  match e with
  | .got_ip event_data => on_got_ip event_data
  | .sta_disconnected connect_result => on_wifi_disconnect connect_result

/-- FreeRTOS `xSemaphoreTake(s_semph_get_ip_addrs, portMAX_DELAY)` with the
events still to be delivered: a positive count is decremented at once;
otherwise the task blocks, the event loop delivers the next event to its
handler, and the take is tried again.  With no event left the task stays
blocked.  A `NULL` handle fails the assertion on the handle.  Under the
cooperative kernel the handlers run only while the calling task is blocked. -/
def xSemaphoreTake_with : List Event → World → Outcome Unit
  | [], w =>
    match w.s_semph_get_ip_addrs with
    | none => .aborted
    | some s =>
      if 0 < s.uxCount then
        .returned ()
          { w with
            s_semph_get_ip_addrs := some { s with uxCount := s.uxCount - 1 },
            events := [], calls := w.calls ++ [.xSemaphoreTake] }
      else .never_returns
  | e :: rest, w =>
    match w.s_semph_get_ip_addrs with
    | none => .aborted
    | some s =>
      if 0 < s.uxCount then
        .returned ()
          { w with
            s_semph_get_ip_addrs := some { s with uxCount := s.uxCount - 1 },
            events := e :: rest, calls := w.calls ++ [.xSemaphoreTake] }
      else
        (dispatch e { w with events := rest }).bind (fun _ w1 => xSemaphoreTake_with rest w1)

/-- FreeRTOS `xSemaphoreTake(s_semph_get_ip_addrs, portMAX_DELAY)`. -/
def xSemaphoreTake : M Unit := fun w => xSemaphoreTake_with w.events w

/-- The loop of lines 110-113 from the value `i` of its counter; the bound
`NR_OF_IP_ADDRESSES_TO_WAIT_FOR` is `s_active_interfaces`, read at every test.
The first argument bounds the number of iterations of the model. -/
def wait_loop : Nat → Int → M Unit
  | 0, i => fun w =>
    if i < w.s_active_interfaces then .nofuel else .returned () w
  | fuel + 1, i => fun w =>
    if i < w.s_active_interfaces then
      (xSemaphoreTake w).bind (fun _ w1 => wait_loop fuel (i + 1) w1)
    else .returned () w

/-- The loop of lines 117-136 over the netif list (`esp_netif_get_nr_of_ifs`
steps of `esp_netif_next`). -/
def print_loop (env : Env) : List Netif → M Unit
  | [] => pure ()
  | netif :: rest => do
    if is_our_netif TAG netif.desc then
      ESP_ERROR_CHECK (sdk env (.esp_netif_get_ip_info netif.handle))
    else
      pure ()
    print_loop env rest

/-- Lines 99-138.  The wait loop gets as many iterations as
`s_active_interfaces` counts when the loop is entered, which is all it needs
(`example_connect_ne_nofuel`). -/
def example_connect (cfg : Config) (env : Env) : M esp_err_t := do
  let w ← getW
  if cfg.EXAMPLE_DO_CONNECT = true ∧ w.s_semph_get_ip_addrs ≠ none then
    pure ESP_ERR_INVALID_STATE
  else do
    start env
    ESP_ERROR_CHECK (sdk env .esp_register_shutdown_handler)
    let w1 ← getW
    wait_loop w1.s_active_interfaces.toNat 0
    let w2 ← getW
    print_loop env w2.netifs
    pure ESP_OK

/-- Lines 140-151. -/
def example_disconnect (env : Env) : M esp_err_t := do
  let w ← getW
  if w.s_semph_get_ip_addrs = none then
    pure ESP_ERR_INVALID_STATE
  else do
    sdk_void .vSemaphoreDelete
    modifyW (fun w => { w with s_semph_get_ip_addrs := none })
    stop env
    ESP_ERROR_CHECK (sdk env .esp_unregister_shutdown_handler)
    pure ESP_OK

/-- A platform on which every call succeeds and the station netif is created
at address 7. -/
def env_ok : Env := { result := fun _ => ESP_OK, create_wifi := some 7, sem_alloc := true }

/-- The station netif that `wifi_start` creates at address 7. -/
def sta_netif : Netif := { handle := 7, desc := "wifimanager: sta".toList }

/-- A got-IP event for the station netif. -/
def sta_got_ip : Event := .got_ip { esp_netif := sta_netif, ip := 0x0A000002 }

/-! ## Auxiliary definitions for the statements -/

/-- A well-formed C string holds no NUL character. -/
def NulFree (s : CStr) : Prop := ∀ c ∈ s, c ≠ Char.ofNat 0

instance (s : CStr) : Decidable (NulFree s) := by
  unfold NulFree; infer_instance

/-- The platform calls of `wifi_start` whose result goes through
`ESP_ERROR_CHECK` (lines 169, 181, 182, 188, 200, 201, 202). -/
def wifi_start_checked : List SdkCall :=
  [.esp_wifi_init,
   .esp_event_handler_register .WIFI_EVENT_STA_DISCONNECTED,
   .esp_event_handler_register .IP_EVENT_STA_GOT_IP,
   .esp_wifi_set_storage, .esp_wifi_set_mode, .esp_wifi_set_config, .esp_wifi_start]

/-- The platform calls of a run of `wifi_start` that reaches its end. -/
def wifi_start_calls : List SdkCall :=
  [.esp_wifi_init,
   .esp_netif_create_wifi (asprintf_colon TAG DEFAULT_WIFI_STA_if_desc),
   .esp_wifi_set_default_wifi_sta_handlers,
   .esp_event_handler_register .WIFI_EVENT_STA_DISCONNECTED,
   .esp_event_handler_register .IP_EVENT_STA_GOT_IP,
   .esp_wifi_set_storage, .esp_wifi_set_mode, .esp_wifi_set_config, .esp_wifi_start,
   .esp_wifi_connect]

/-- The netif list after `esp_netif_create_wifi` at line 177. -/
def netifs_after_create (env : Env) (netifs : List Netif) : List Netif :=
  match env.create_wifi with
  | some h => netifs ++ [{ handle := h, desc := asprintf_colon TAG DEFAULT_WIFI_STA_if_desc }]
  | none => netifs

/-- The netif list after `esp_netif_destroy(netif)`. -/
def netifs_after_destroy (netif : Ptr) (netifs : List Netif) : List Netif :=
  match netif with
  | some h => netifs.filter (fun n => n.handle ≠ h)
  | none => netifs

/-- The platform calls of a run of `wifi_stop` that returns at line 219. -/
def wifi_stop_calls_early : List SdkCall :=
  [.esp_event_handler_unregister .WIFI_EVENT_STA_DISCONNECTED,
   .esp_event_handler_unregister .IP_EVENT_STA_GOT_IP,
   .esp_wifi_stop]

/-- The platform calls of a run of `wifi_stop` that reaches line 225. -/
def wifi_stop_calls_full (wifi_netif : Ptr) : List SdkCall :=
  [.esp_event_handler_unregister .WIFI_EVENT_STA_DISCONNECTED,
   .esp_event_handler_unregister .IP_EVENT_STA_GOT_IP,
   .esp_wifi_stop, .esp_wifi_deinit, .esp_wifi_clear_default_wifi_driver_and_handlers,
   .esp_netif_destroy wifi_netif]

/-- The state in which a run of `wifi_stop` that reaches line 225 returns. -/
def world_after_wifi_stop (w : World) : World :=
  { w with
    s_example_esp_netif := none,
    netifs := netifs_after_destroy (get_example_netif_from_desc_in w.netifs "sta".toList) w.netifs,
    calls := w.calls ++
      wifi_stop_calls_full (get_example_netif_from_desc_in w.netifs "sta".toList) }

/-- The state in which a run of `start` that returns does so. -/
def world_after_start (env : Env) (w : World) : World :=
  { w with
    s_active_interfaces := w.s_active_interfaces + 1,
    s_semph_get_ip_addrs :=
      (if env.sem_alloc = true then
        some { uxMaxCount := to_UBaseType (w.s_active_interfaces + 1), uxCount := 0 }
      else none),
    s_example_esp_netif := env.create_wifi,
    netifs := netifs_after_create env w.netifs,
    calls := w.calls ++ wifi_start_calls ++
      [.xSemaphoreCreateCounting (to_UBaseType (w.s_active_interfaces + 1)) 0] }

/-- The state in which `example_connect` returns on `env_ok` from the initial
state with no other netif and one got-IP event for the station netif. -/
def w_connected : World :=
  { s_active_interfaces := 1,
    s_semph_get_ip_addrs := some { uxMaxCount := 1, uxCount := 0 },
    s_example_esp_netif := some 7,
    s_ip_addr := 0x0A000002,
    netifs := [sta_netif],
    events := [],
    calls :=
      [.esp_wifi_init, .esp_netif_create_wifi "wifimanager: sta".toList,
       .esp_wifi_set_default_wifi_sta_handlers,
       .esp_event_handler_register .WIFI_EVENT_STA_DISCONNECTED,
       .esp_event_handler_register .IP_EVENT_STA_GOT_IP,
       .esp_wifi_set_storage, .esp_wifi_set_mode, .esp_wifi_set_config, .esp_wifi_start,
       .esp_wifi_connect, .xSemaphoreCreateCounting 1 0, .esp_register_shutdown_handler,
       .xSemaphoreGive, .xSemaphoreTake, .esp_netif_get_ip_info 7] }

/-- A platform on which `esp_wifi_stop` reports that Wi-Fi is not initialised
and every other call succeeds. -/
def env_stop_not_init : Env :=
  { result := fun c => if c = .esp_wifi_stop then ESP_ERR_WIFI_NOT_INIT else ESP_OK,
    create_wifi := some 7, sem_alloc := true }

/-- A platform on which `esp_wifi_stop` fails and every other call succeeds. -/
def env_stop_fails : Env :=
  { result := fun c => if c = .esp_wifi_stop then ESP_FAIL else ESP_OK,
    create_wifi := some 7, sem_alloc := true }

/-- Whether an event is a got-IP event that `on_got_ip` accepts: its netif
passes `is_our_netif(TAG, ·)`. -/
def is_our_got_ip (e : Event) : Bool :=
  match e with
  | .got_ip event_data => is_our_netif TAG event_data.esp_netif.desc
  | .sta_disconnected _ => false

/-- The number of got-IP events in a list that `on_got_ip` accepts. -/
def our_got_ips (evs : List Event) : Nat := evs.countP is_our_got_ip

/-- The number of got-IP events in a list, accepted or not. -/
def got_ips (evs : List Event) : Nat :=
  evs.countP (fun e => match e with | .got_ip _ => true | .sta_disconnected _ => false)

/-- The calls the event handlers make. -/
def handler_call (c : SdkCall) : Prop := c = .xSemaphoreGive ∨ c = .esp_wifi_connect

/-- The relation between the state `w` in which a wait starts with the events
`evs` pending and the state `w1` in which it is over after `k` takes: the
events consumed are a front part `pre` of `evs`; the statics other than the
semaphore and the address are unchanged; the calls made are `k` takes, one
give per accepted got-IP event consumed, and the reconnects of the disconnect
handler; the semaphore keeps its maximum and, when that is positive, its count
went up by the accepted events and down by the takes, a take that finds the
count at 0 waiting for the next give. -/
def Waited (k : Nat) (evs : List Event) (w w1 : World) : Prop :=
  ∃ pre extra,
    evs = pre ++ w1.events ∧
    w1.s_active_interfaces = w.s_active_interfaces ∧
    w1.s_example_esp_netif = w.s_example_esp_netif ∧
    w1.netifs = w.netifs ∧
    w1.calls = w.calls ++ extra ∧
    extra.count .xSemaphoreTake = k ∧
    extra.count .xSemaphoreGive = our_got_ips pre ∧
    (∀ c ∈ extra, handler_call c ∨ c = .xSemaphoreTake) ∧
    (∀ s, w.s_semph_get_ip_addrs = some s →
      ∃ s1, w1.s_semph_get_ip_addrs = some s1 ∧ s1.uxMaxCount = s.uxMaxCount ∧
        (0 < s.uxMaxCount →
          s.uxCount + our_got_ips pre = s1.uxCount + k ∧ s1.uxCount = s.uxCount - k))

/-- The state in which `example_connect` enters the wait loop (line 110). -/
def world_before_wait (env : Env) (w : World) : World :=
  { world_after_start env w with
    calls := (world_after_start env w).calls ++ [.esp_register_shutdown_handler] }

/-- The calls of the loop of lines 117-136 over a netif list. -/
def print_calls (netifs : List Netif) : List SdkCall :=
  (netifs.filter (fun n => is_our_netif TAG n.desc)).map (fun n => .esp_netif_get_ip_info n.handle)

/-- A netif that does not belong to this module. -/
def eth_netif : Netif := { handle := 3, desc := "eth".toList }

/-- A got-IP event for a netif that does not belong to this module. -/
def eth_got_ip : ip_event_got_ip_t := { esp_netif := eth_netif, ip := 0x0A000003 }

/-- The state in which `example_disconnect` returns on `env_ok` in
`w_connected`. -/
def w_disconnected : World :=
  { s_active_interfaces := 0,
    s_semph_get_ip_addrs := none,
    s_example_esp_netif := none,
    s_ip_addr := 0x0A000002,
    netifs := [],
    events := [],
    calls := w_connected.calls ++ [.vSemaphoreDelete] ++ wifi_stop_calls_full (some 7) ++
      [.esp_unregister_shutdown_handler] }

/-- The state in which `example_disconnect` returns in `w_connected` when
`esp_wifi_stop` reports `ESP_ERR_WIFI_NOT_INIT`. -/
def w_disconnected_early : World :=
  { s_active_interfaces := 0,
    s_semph_get_ip_addrs := none,
    s_example_esp_netif := some 7,
    s_ip_addr := 0x0A000002,
    netifs := [sta_netif],
    events := [],
    calls := w_connected.calls ++ [.vSemaphoreDelete] ++ wifi_stop_calls_early ++
      [.esp_unregister_shutdown_handler] }

@[simp]
theorem bind_apply {α β : Type} (m : M α) (f : α → M β) (w : World) :
    (m >>= f) w = (m w).bind f := rfl

@[simp]
theorem pure_apply {α : Type} (a : α) (w : World) :
    (pure a : M α) w = .returned a w := rfl

@[simp]
theorem bind_returned {α β : Type} (a : α) (w : World) (f : α → World → Outcome β) :
    (Outcome.returned a w).bind f = f a w := rfl

@[simp]
theorem bind_aborted {α β : Type} (f : α → World → Outcome β) :
    (Outcome.aborted : Outcome α).bind f = .aborted := rfl

@[simp]
theorem bind_never_returns {α β : Type} (f : α → World → Outcome β) :
    (Outcome.never_returns : Outcome α).bind f = .never_returns := rfl

@[simp]
theorem bind_nofuel {α β : Type} (f : α → World → Outcome β) :
    (Outcome.nofuel : Outcome α).bind f = .nofuel := rfl

/-- When a sequence returns, its first part returned. -/
theorem bind_eq_returned {α β : Type} {o : Outcome α} {f : α → World → Outcome β}
    {b : β} {w' : World} (h : o.bind f = .returned b w') :
    ∃ a w1, o = .returned a w1 ∧ f a w1 = .returned b w' := by
  cases o with
  | returned a w1 => exact ⟨a, w1, rfl, h⟩
  | aborted => simp at h
  | never_returns => simp at h
  | nofuel => simp at h

theorem ESP_ERROR_CHECK_sdk (env : Env) (c : SdkCall) (w : World) :
    ESP_ERROR_CHECK (sdk env c) w =
      if env.result c = ESP_OK then .returned () { w with calls := w.calls ++ [c] }
      else .aborted := by
  simp only [ESP_ERROR_CHECK, sdk, bind_apply, bind_returned]
  split <;> rfl

theorem ESP_ERROR_CHECK_pure (e : esp_err_t) (w : World) :
    ESP_ERROR_CHECK (pure e) w = if e = ESP_OK then .returned () w else .aborted := by
  simp only [ESP_ERROR_CHECK, bind_apply, pure_apply, bind_returned]
  split <;> rfl

/-! ## Strings -/

theorem char_toNat_inj {a b : Char} (h : a.toNat = b.toNat) : a = b := by
  rw [← Char.ofNat_toNat a, ← Char.ofNat_toNat b, h]

theorem char_toNat_ne_zero {a : Char} (h : a ≠ Char.ofNat 0) : a.toNat ≠ 0 := by
  intro h0
  apply h
  apply char_toNat_inj
  rw [h0]; rfl

theorem strncmp_eq_zero_iff (a b : CStr) (n : Nat) (ha : NulFree a) (hb : NulFree b) :
    strncmp a b n = 0 ↔ a.take n = b.take n := by
  induction a generalizing b n with
  | nil =>
    cases b with
    | nil => simp [strncmp]
    | cons y ys =>
      have hy : y.toNat ≠ 0 := char_toNat_ne_zero (hb y (by simp))
      simp only [strncmp]
      cases n with
      | zero => simp
      | succ k =>
        simp only [Nat.succ_ne_zero, if_false, List.take_nil, List.take_succ_cons]
        constructor
        · intro h; omega
        · intro h; simp at h
  | cons x xs ih =>
    cases b with
    | nil =>
      have hx : x.toNat ≠ 0 := char_toNat_ne_zero (ha x (by simp))
      simp only [strncmp]
      cases n with
      | zero => simp
      | succ k =>
        simp only [Nat.succ_ne_zero, if_false, List.take_nil, List.take_succ_cons]
        constructor
        · intro h; omega
        · intro h; simp at h
    | cons y ys =>
      simp only [strncmp]
      cases n with
      | zero => simp
      | succ k =>
        simp only [Nat.succ_ne_zero, if_false, List.take_succ_cons, Nat.add_sub_cancel]
        by_cases hxy : x = y
        · subst hxy
          have ha1 : NulFree xs := fun c hc => ha c (by simp [hc])
          have hb1 : NulFree ys := fun c hc => hb c (by simp [hc])
          simp [ih ys k ha1 hb1]
        · have hne : x.toNat ≠ y.toNat := fun h => hxy (char_toNat_inj h)
          simp only [hxy, if_false]
          constructor
          · intro h; omega
          · intro h; simp at h; exact absurd h.1 hxy

/-- What `is_our_netif` computes for a non-empty prefix shorter than `SIZE_MAX`:
it compares all but the last character of the prefix. -/
theorem is_our_netif_iff (pfx desc : CStr) (hp : NulFree pfx) (hd : NulFree desc)
    (h0 : 0 < strlen pfx) (hlen : strlen pfx < 2 ^ SIZE_BITS) :
    is_our_netif pfx desc = true ↔
      pfx.take (strlen pfx - 1) = desc.take (strlen pfx - 1) := by
  have hn : (strlen pfx + 2 ^ SIZE_BITS - 1) % 2 ^ SIZE_BITS = strlen pfx - 1 := by
    have h1 : strlen pfx + 2 ^ SIZE_BITS - 1 = (strlen pfx - 1) + 2 ^ SIZE_BITS := by omega
    rw [h1, Nat.add_mod_right]
    apply Nat.mod_eq_of_lt
    omega
  unfold is_our_netif
  rw [hn, beq_iff_eq]
  exact strncmp_eq_zero_iff pfx desc _ hp hd

/-- C1, on the code: with the prefix TAG = "wifimanager", `is_our_netif` accepts
the description "wifimanagex", which does not start with "wifimanager"; with the
empty prefix it rejects the description "a", which starts with the empty
string.  The length passed to `strncmp` is `strlen(prefix) - 1`, not
`strlen(prefix)`. -/
theorem is_our_netif_off_by_one :
    is_our_netif TAG "wifimanagex".toList = true ∧
    ¬ (TAG <+: "wifimanagex".toList) ∧
    "wifimanagex".toList.take (strlen TAG) ≠ TAG ∧
    is_our_netif [] "a".toList = false ∧
    ([] : CStr) <+: "a".toList := by
  refine ⟨by decide, by decide, by decide, by decide, by simp⟩

/-- C3: `on_wifi_disconnect` returns normally exactly when its `esp_wifi_connect`
call returned `ESP_OK` or `ESP_ERR_WIFI_NOT_STARTED`; in the latter case it only
made that call and left every static (and the netif list and the pending
events) as it was; every other result aborts. -/
theorem on_wifi_disconnect_spec (err : esp_err_t) (w : World) :
    ((∃ w', on_wifi_disconnect err w = .returned () w') ↔
        (err = ESP_OK ∨ err = ESP_ERR_WIFI_NOT_STARTED)) ∧
    on_wifi_disconnect ESP_ERR_WIFI_NOT_STARTED w =
        .returned () { w with calls := w.calls ++ [.esp_wifi_connect] } ∧
    (¬ (err = ESP_OK ∨ err = ESP_ERR_WIFI_NOT_STARTED) ↔
        on_wifi_disconnect err w = .aborted) := by
  refine ⟨?_, ?_, ?_⟩
  · by_cases h1 : err = ESP_ERR_WIFI_NOT_STARTED
    · simp [on_wifi_disconnect, sdk_returning, h1]
    · by_cases h2 : err = ESP_OK
      · simp [on_wifi_disconnect, sdk_returning, ESP_ERROR_CHECK_pure, h2, ESP_OK, ESP_ERR_WIFI_NOT_STARTED]
      · simp [on_wifi_disconnect, sdk_returning, ESP_ERROR_CHECK_pure, h1, h2]
  · simp [on_wifi_disconnect, sdk_returning]
  · by_cases h1 : err = ESP_ERR_WIFI_NOT_STARTED
    · simp [on_wifi_disconnect, sdk_returning, h1]
    · by_cases h2 : err = ESP_OK
      · simp [on_wifi_disconnect, sdk_returning, ESP_ERROR_CHECK_pure, h2, ESP_OK, ESP_ERR_WIFI_NOT_STARTED]
      · simp [on_wifi_disconnect, sdk_returning, ESP_ERROR_CHECK_pure, h1, h2]

theorem wifi_start_eq (env : Env) (w : World) :
    wifi_start env w =
      if ∀ c ∈ wifi_start_checked, env.result c = ESP_OK then
        .returned env.create_wifi
          { w with netifs := netifs_after_create env w.netifs,
                   calls := w.calls ++ wifi_start_calls }
      else .aborted := by
  by_cases h1 : env.result .esp_wifi_init = ESP_OK
  · by_cases h2 : env.result (.esp_event_handler_register .WIFI_EVENT_STA_DISCONNECTED) = ESP_OK
    · by_cases h3 : env.result (.esp_event_handler_register .IP_EVENT_STA_GOT_IP) = ESP_OK
      · by_cases h4 : env.result .esp_wifi_set_storage = ESP_OK
        · by_cases h5 : env.result .esp_wifi_set_mode = ESP_OK
          · by_cases h6 : env.result .esp_wifi_set_config = ESP_OK
            · by_cases h7 : env.result .esp_wifi_start = ESP_OK
              · simp [wifi_start, ESP_ERROR_CHECK_sdk, esp_netif_create_wifi, sdk,
                  wifi_start_checked, wifi_start_calls, netifs_after_create, h1, h2, h3, h4, h5, h6, h7]
              · simp [wifi_start, ESP_ERROR_CHECK_sdk, esp_netif_create_wifi, sdk,
                  wifi_start_checked, h1, h2, h3, h4, h5, h6, h7]
            · simp [wifi_start, ESP_ERROR_CHECK_sdk, esp_netif_create_wifi, sdk,
                wifi_start_checked, h1, h2, h3, h4, h5, h6]
          · simp [wifi_start, ESP_ERROR_CHECK_sdk, esp_netif_create_wifi, sdk,
              wifi_start_checked, h1, h2, h3, h4, h5]
        · simp [wifi_start, ESP_ERROR_CHECK_sdk, esp_netif_create_wifi, sdk,
            wifi_start_checked, h1, h2, h3, h4]
      · simp [wifi_start, ESP_ERROR_CHECK_sdk, esp_netif_create_wifi, sdk,
          wifi_start_checked, h1, h2, h3]
    · simp [wifi_start, ESP_ERROR_CHECK_sdk, esp_netif_create_wifi, sdk,
        wifi_start_checked, h1, h2]
  · simp [wifi_start, ESP_ERROR_CHECK_sdk, esp_netif_create_wifi, sdk,
      wifi_start_checked, h1]

theorem wifi_stop_eq (env : Env) (w : World) :
    wifi_stop env w =
      if env.result (.esp_event_handler_unregister .WIFI_EVENT_STA_DISCONNECTED) = ESP_OK ∧
          env.result (.esp_event_handler_unregister .IP_EVENT_STA_GOT_IP) = ESP_OK then
        if env.result .esp_wifi_stop = ESP_ERR_WIFI_NOT_INIT then
          .returned () { w with calls := w.calls ++ wifi_stop_calls_early }
        else if env.result .esp_wifi_stop = ESP_OK ∧ env.result .esp_wifi_deinit = ESP_OK ∧
            env.result .esp_wifi_clear_default_wifi_driver_and_handlers = ESP_OK then
          .returned () (world_after_wifi_stop w)
        else .aborted
      else .aborted := by
  by_cases h1 : env.result (.esp_event_handler_unregister .WIFI_EVENT_STA_DISCONNECTED) = ESP_OK
  · by_cases h2 : env.result (.esp_event_handler_unregister .IP_EVENT_STA_GOT_IP) = ESP_OK
    · by_cases h3 : env.result .esp_wifi_stop = ESP_ERR_WIFI_NOT_INIT
      · simp [wifi_stop, ESP_ERROR_CHECK_sdk, get_example_netif_from_desc, sdk,
          wifi_stop_calls_early, h1, h2, h3]
      · by_cases h4 : env.result .esp_wifi_stop = ESP_OK
        · have hne : ¬ (ESP_OK = ESP_ERR_WIFI_NOT_INIT) := by decide
          by_cases h5 : env.result .esp_wifi_deinit = ESP_OK
          · by_cases h6 : env.result .esp_wifi_clear_default_wifi_driver_and_handlers = ESP_OK
            · simp [wifi_stop, ESP_ERROR_CHECK_sdk, ESP_ERROR_CHECK_pure,
                get_example_netif_from_desc, sdk, esp_netif_destroy, modifyW,
                world_after_wifi_stop, wifi_stop_calls_full, netifs_after_destroy,
                h1, h2, h3, h4, h5, h6, hne]
            · simp [wifi_stop, ESP_ERROR_CHECK_sdk, ESP_ERROR_CHECK_pure,
                get_example_netif_from_desc, sdk, h1, h2, h3, h4, h5, h6, hne]
          · simp [wifi_stop, ESP_ERROR_CHECK_sdk, ESP_ERROR_CHECK_pure,
              get_example_netif_from_desc, sdk, h1, h2, h3, h4, h5, hne]
        · simp [wifi_stop, ESP_ERROR_CHECK_sdk, ESP_ERROR_CHECK_pure,
            get_example_netif_from_desc, sdk, h1, h2, h3, h4]
    · simp [wifi_stop, ESP_ERROR_CHECK_sdk, get_example_netif_from_desc, h1, h2]
  · simp [wifi_stop, ESP_ERROR_CHECK_sdk, get_example_netif_from_desc, h1]

theorem start_eq (env : Env) (w : World) :
    start env w =
      if ∀ c ∈ wifi_start_checked, env.result c = ESP_OK then
        .returned () (world_after_start env w)
      else .aborted := by
  by_cases h : ∀ c ∈ wifi_start_checked, env.result c = ESP_OK
  · simp only [start, bind_apply, wifi_start_eq, if_pos h, bind_returned, modifyW, getW,
      xSemaphoreCreateCounting, world_after_start, List.append_assoc]
  · simp only [start, bind_apply, wifi_start_eq, if_neg h, bind_aborted]

theorem stop_eq (env : Env) (w : World) :
    stop env w =
      (wifi_stop env w).bind (fun _ w1 =>
        .returned () { w1 with s_active_interfaces := w1.s_active_interfaces - 1 }) := by
  simp only [stop, bind_apply]
  rfl

theorem example_disconnect_null (env : Env) (w : World) (h : w.s_semph_get_ip_addrs = none) :
    example_disconnect env w = .returned ESP_ERR_INVALID_STATE w := by
  simp [example_disconnect, getW, h]

theorem example_disconnect_open (env : Env) (w : World) (h : w.s_semph_get_ip_addrs ≠ none) :
    example_disconnect env w =
      (wifi_stop env { w with s_semph_get_ip_addrs := none,
                              calls := w.calls ++ [.vSemaphoreDelete] }).bind
        (fun _ w1 =>
          if env.result .esp_unregister_shutdown_handler = ESP_OK then
            .returned ESP_OK
              { w1 with s_active_interfaces := w1.s_active_interfaces - 1,
                        calls := w1.calls ++ [.esp_unregister_shutdown_handler] }
          else .aborted) := by
  simp only [example_disconnect, getW, bind_apply, bind_returned, h, if_false, sdk_void, modifyW,
    stop_eq]
  cases wifi_stop env { w with s_semph_get_ip_addrs := none,
                               calls := w.calls ++ [.vSemaphoreDelete] } with
  | returned a w1 =>
    simp only [bind_returned]
    by_cases h2 : env.result .esp_unregister_shutdown_handler = ESP_OK
    · simp [ESP_ERROR_CHECK_sdk, h2]
    · simp [ESP_ERROR_CHECK_sdk, h2]
  | aborted => rfl
  | never_returns => rfl
  | nofuel => rfl

theorem wifi_stop_cases (env : Env) (w w' : World) (h : wifi_stop env w = .returned () w') :
    (env.result .esp_wifi_stop = ESP_ERR_WIFI_NOT_INIT ∧
        w' = { w with calls := w.calls ++ wifi_stop_calls_early }) ∨
    (env.result .esp_wifi_stop = ESP_OK ∧ w' = world_after_wifi_stop w) := by
  rw [wifi_stop_eq] at h
  split at h
  · split at h
    · next h3 =>
      left
      simp only [Outcome.returned.injEq, true_and] at h
      exact ⟨h3, h.symm⟩
    · split at h
      · next h4 =>
        right
        simp only [Outcome.returned.injEq, true_and] at h
        exact ⟨h4.1, h.symm⟩
      · simp at h
  · simp at h

/-- C5, as amended: in `wifi_stop` every result of `esp_wifi_stop` other than
`ESP_OK` and `ESP_ERR_WIFI_NOT_INIT` aborts; when `wifi_stop` returns after
`ESP_ERR_WIFI_NOT_INIT` it has only made the two unregister calls and
`esp_wifi_stop`, and changed nothing else; when it returns otherwise,
`esp_wifi_stop` returned `ESP_OK`, the driver has been deinitialised, the netif
found under the description "wifimanager: sta" has been destroyed and
`s_example_esp_netif` is `NULL`. -/
theorem wifi_stop_spec (env : Env) (w : World) :
    (env.result .esp_wifi_stop ≠ ESP_OK → env.result .esp_wifi_stop ≠ ESP_ERR_WIFI_NOT_INIT →
        wifi_stop env w = .aborted) ∧
    (∀ w', wifi_stop env w = .returned () w' →
        env.result .esp_wifi_stop = ESP_ERR_WIFI_NOT_INIT →
        w' = { w with calls := w.calls ++ wifi_stop_calls_early }) ∧
    (∀ w', wifi_stop env w = .returned () w' →
        env.result .esp_wifi_stop ≠ ESP_ERR_WIFI_NOT_INIT →
        env.result .esp_wifi_stop = ESP_OK ∧
        w'.s_example_esp_netif = none ∧
        SdkCall.esp_wifi_deinit ∈ w'.calls ∧
        SdkCall.esp_netif_destroy (get_example_netif_from_desc_in w.netifs "sta".toList)
          ∈ w'.calls ∧
        w'.netifs =
          netifs_after_destroy (get_example_netif_from_desc_in w.netifs "sta".toList) w.netifs) := by
  refine ⟨?_, ?_, ?_⟩
  · intro h1 h2
    rw [wifi_stop_eq]
    simp [h1, h2]
  · intro w' h hni
    rcases wifi_stop_cases env w w' h with ⟨_, hw⟩ | ⟨hok, _⟩
    · exact hw
    · rw [hok] at hni
      exact absurd hni (by decide)
  · intro w' h hni
    rcases wifi_stop_cases env w w' h with ⟨h3, _⟩ | ⟨hok, hw⟩
    · exact absurd h3 hni
    · subst hw
      refine ⟨hok, rfl, ?_, ?_, rfl⟩
      · simp [world_after_wifi_stop, wifi_stop_calls_full]
      · simp [world_after_wifi_stop, wifi_stop_calls_full]

/-- C5, on the code: in the state after a connect, with `esp_wifi_stop`
returning `ESP_ERR_WIFI_NOT_INIT` (which is not `ESP_OK`), `wifi_stop` returns
normally; it has not called `esp_wifi_deinit` or `esp_netif_destroy`, the
station netif is still in the list and `s_example_esp_netif` still holds its
address. -/
theorem wifi_stop_not_init_returns :
    env_stop_not_init.result .esp_wifi_stop ≠ ESP_OK ∧
    wifi_stop env_stop_not_init w_connected =
      .returned () { w_connected with calls := w_connected.calls ++ wifi_stop_calls_early } ∧
    SdkCall.esp_wifi_deinit ∉ w_connected.calls ++ wifi_stop_calls_early ∧
    SdkCall.esp_netif_destroy (some 7) ∉ w_connected.calls ++ wifi_stop_calls_early ∧
    w_connected.netifs = [sta_netif] ∧
    w_connected.s_example_esp_netif = some 7 := by
  refine ⟨by decide, by decide!, by decide, by decide, rfl, rfl⟩

/-- An instance of the statement above: a failing `esp_wifi_stop` aborts `wifi_stop`. -/
theorem wifi_stop_spec_witness :
    env_stop_fails.result .esp_wifi_stop ≠ ESP_OK ∧
    env_stop_fails.result .esp_wifi_stop ≠ ESP_ERR_WIFI_NOT_INIT ∧
    wifi_stop env_stop_fails w_connected = .aborted :=
  ⟨by decide, by decide,
    (wifi_stop_spec env_stop_fails w_connected).1 (by decide) (by decide)⟩

/-- C8: `example_disconnect` returns `ESP_ERR_INVALID_STATE` exactly when the
semaphore handle is `NULL` at the call; it then returns in the state it was
called in (no platform call, no static changed); with a non-`NULL` handle,
when it returns it returns `ESP_OK` with the handle `NULL`, and a second
`example_disconnect` right after returns `ESP_ERR_INVALID_STATE`. -/
theorem example_disconnect_spec (env env2 : Env) (w : World) :
    ((∃ w', example_disconnect env w = .returned ESP_ERR_INVALID_STATE w') ↔
        w.s_semph_get_ip_addrs = none) ∧
    (w.s_semph_get_ip_addrs = none →
        example_disconnect env w = .returned ESP_ERR_INVALID_STATE w) ∧
    (w.s_semph_get_ip_addrs ≠ none → ∀ r w', example_disconnect env w = .returned r w' →
        r = ESP_OK ∧ w'.s_semph_get_ip_addrs = none ∧
        example_disconnect env2 w' = .returned ESP_ERR_INVALID_STATE w') := by
  have key : w.s_semph_get_ip_addrs ≠ none → ∀ r w',
      example_disconnect env w = .returned r w' →
      r = ESP_OK ∧ w'.s_semph_get_ip_addrs = none := by
    intro hs r w' h
    rw [example_disconnect_open env w hs] at h
    obtain ⟨_, w1, h1, h2⟩ := bind_eq_returned h
    split at h2
    · simp only [Outcome.returned.injEq] at h2
      obtain ⟨hr, hw⟩ := h2
      subst hw
      refine ⟨hr.symm, ?_⟩
      rcases wifi_stop_cases env _ w1 h1 with ⟨_, hw1⟩ | ⟨_, hw1⟩
      · subst hw1; rfl
      · subst hw1; rfl
    · simp at h2
  refine ⟨?_, ?_, ?_⟩
  · constructor
    · rintro ⟨w', h⟩
      by_contra hs
      have := (key hs _ _ h).1
      exact absurd this (by decide)
    · intro hs
      exact ⟨w, example_disconnect_null env w hs⟩
  · exact example_disconnect_null env w
  · intro hs r w' h
    obtain ⟨hr, hw⟩ := key hs r w' h
    exact ⟨hr, hw, example_disconnect_null env2 w' hw⟩

/-- An instance of the statement above: after a connect, a disconnect
returns `ESP_OK` and the next one returns `ESP_ERR_INVALID_STATE`. -/
theorem example_disconnect_spec_witness :
    w_connected.s_semph_get_ip_addrs ≠ none ∧
    example_disconnect env_ok w_connected =
      .returned ESP_OK
        { world_after_wifi_stop
            { w_connected with s_semph_get_ip_addrs := none,
                               calls := w_connected.calls ++ [.vSemaphoreDelete] } with
          s_active_interfaces := 0,
          calls := w_connected.calls ++ [.vSemaphoreDelete] ++ wifi_stop_calls_full (some 7) ++
            [.esp_unregister_shutdown_handler] } ∧
    example_disconnect env_ok
        { world_after_wifi_stop
            { w_connected with s_semph_get_ip_addrs := none,
                               calls := w_connected.calls ++ [.vSemaphoreDelete] } with
          s_active_interfaces := 0,
          calls := w_connected.calls ++ [.vSemaphoreDelete] ++ wifi_stop_calls_full (some 7) ++
            [.esp_unregister_shutdown_handler] } =
      .returned ESP_ERR_INVALID_STATE
        { world_after_wifi_stop
            { w_connected with s_semph_get_ip_addrs := none,
                               calls := w_connected.calls ++ [.vSemaphoreDelete] } with
          s_active_interfaces := 0,
          calls := w_connected.calls ++ [.vSemaphoreDelete] ++ wifi_stop_calls_full (some 7) ++
            [.esp_unregister_shutdown_handler] } :=
  ⟨by decide, by decide!,
    ((example_disconnect_spec env_ok env_ok w_connected).2.2 (by decide) ESP_OK _
      (by decide!)).2.2⟩

/-! ## The event handlers and the wait -/

theorem on_got_ip_eq (event : ip_event_got_ip_t) (w : World) :
    on_got_ip event w =
      if is_our_netif TAG event.esp_netif.desc = true then
        match w.s_semph_get_ip_addrs with
        | none => .aborted
        | some s =>
          .returned ()
            { w with
              s_ip_addr := event.ip,
              s_semph_get_ip_addrs :=
                some (if s.uxCount < s.uxMaxCount then { s with uxCount := s.uxCount + 1 } else s),
              calls := w.calls ++ [.xSemaphoreGive] }
      else .returned () w := by
  by_cases h : is_our_netif TAG event.esp_netif.desc = true
  · cases hs : w.s_semph_get_ip_addrs <;> simp [on_got_ip, h, modifyW, xSemaphoreGive, hs]
  · simp [on_got_ip, h]

/-- What a delivery that returns does to a state that holds a semaphore. -/
theorem dispatch_returned (e : Event) (w w1 : World) (s : Semaphore)
    (hs : w.s_semph_get_ip_addrs = some s) (h : dispatch e w = .returned () w1) :
    ∃ s1 extra,
      w1.s_semph_get_ip_addrs = some s1 ∧ s1.uxMaxCount = s.uxMaxCount ∧
      s1.uxCount = (if s.uxCount < s.uxMaxCount then s.uxCount + our_got_ips [e] else s.uxCount) ∧
      w1.s_active_interfaces = w.s_active_interfaces ∧
      w1.s_example_esp_netif = w.s_example_esp_netif ∧
      w1.netifs = w.netifs ∧ w1.events = w.events ∧
      w1.calls = w.calls ++ extra ∧ (∀ c ∈ extra, handler_call c) ∧
      extra.count .xSemaphoreGive = our_got_ips [e] := by
  cases e with
  | got_ip d =>
    simp only [dispatch, on_got_ip_eq, hs] at h
    by_cases hour : is_our_netif TAG d.esp_netif.desc = true
    · simp only [hour, if_true, Outcome.returned.injEq, true_and] at h
      subst h
      refine ⟨_, [.xSemaphoreGive], rfl, ?_, ?_, rfl, rfl, rfl, rfl, rfl, ?_, ?_⟩
      · split <;> rfl
      · simp only [our_got_ips, List.countP_cons, List.countP_nil, is_our_got_ip, hour]
        split <;> simp
      · intro c hc
        simp only [List.mem_singleton] at hc
        exact Or.inl hc
      · simp [our_got_ips, is_our_got_ip, hour]
    · simp only [hour, Bool.false_eq_true, if_false, Outcome.returned.injEq, true_and] at h
      subst h
      refine ⟨s, [], hs, rfl, ?_, rfl, rfl, rfl, rfl, by simp, by simp, ?_⟩
      · simp [our_got_ips, is_our_got_ip, hour]
      · simp [our_got_ips, is_our_got_ip, hour]
  | sta_disconnected err =>
    simp only [dispatch, on_wifi_disconnect, sdk_returning, bind_apply, bind_returned] at h
    have hw1 : w1 = { w with calls := w.calls ++ [.esp_wifi_connect] } := by
      split at h
      · simp only [pure_apply, Outcome.returned.injEq, true_and] at h
        exact h.symm
      · rw [ESP_ERROR_CHECK_pure] at h
        split at h
        · simp only [Outcome.returned.injEq, true_and] at h
          exact h.symm
        · simp at h
    subst hw1
    refine ⟨s, [.esp_wifi_connect], hs, rfl, ?_, rfl, rfl, rfl, rfl, rfl, ?_, ?_⟩
    · simp [our_got_ips, is_our_got_ip]
    · intro c hc
      simp only [List.mem_singleton] at hc
      exact Or.inr hc
    · simp [our_got_ips, is_our_got_ip]

theorem Waited_refl (w : World) : Waited 0 w.events w w := by
  refine ⟨[], [], by simp, rfl, rfl, rfl, by simp, by simp, by simp [our_got_ips], by simp, ?_⟩
  intro s hs
  exact ⟨s, hs, rfl, fun _ => by simp [our_got_ips]⟩

theorem Waited_trans {k1 k2 : Nat} {evs : List Event} {w w1 w2 : World}
    (h1 : Waited k1 evs w w1) (h2 : Waited k2 w1.events w1 w2) :
    Waited (k1 + k2) evs w w2 := by
  obtain ⟨pre1, ex1, he1, ha1, hn1, hl1, hc1, ht1, hg1, hh1, hs1⟩ := h1
  obtain ⟨pre2, ex2, he2, ha2, hn2, hl2, hc2, ht2, hg2, hh2, hs2⟩ := h2
  refine ⟨pre1 ++ pre2, ex1 ++ ex2, ?_, ?_, ?_, ?_, ?_, ?_, ?_, ?_, ?_⟩
  · rw [he1, he2, List.append_assoc]
  · rw [ha2, ha1]
  · rw [hn2, hn1]
  · rw [hl2, hl1]
  · rw [hc2, hc1, List.append_assoc]
  · rw [List.count_append, ht1, ht2]
  · rw [List.count_append, hg1, hg2]
    simp [our_got_ips, List.countP_append]
  · intro c hc
    rcases List.mem_append.mp hc with h | h
    · exact hh1 c h
    · exact hh2 c h
  · intro s hs
    obtain ⟨s1, hw1, hm1, hq1⟩ := hs1 s hs
    obtain ⟨s2, hw2, hm2, hq2⟩ := hs2 s1 hw1
    refine ⟨s2, hw2, by rw [hm2, hm1], ?_⟩
    intro hpos
    obtain ⟨e1, e1b⟩ := hq1 hpos
    obtain ⟨e2, e2b⟩ := hq2 (by rw [hm1]; exact hpos)
    have : our_got_ips (pre1 ++ pre2) = our_got_ips pre1 + our_got_ips pre2 := by
      simp [our_got_ips, List.countP_append]
    constructor <;> omega

/-- A take that returns: the handle was not `NULL` and the state changed as in
a wait of one take. -/
theorem xSemaphoreTake_with_returned (evs : List Event) (w w1 : World)
    (h : xSemaphoreTake_with evs w = .returned () w1) :
    w.s_semph_get_ip_addrs ≠ none ∧ Waited 1 evs w w1 := by
  induction evs generalizing w with
  | nil =>
    simp only [xSemaphoreTake_with] at h
    cases hs : w.s_semph_get_ip_addrs with
    | none => simp [hs] at h
    | some s =>
      simp only [hs] at h
      split at h
      · next hpos =>
        simp only [Outcome.returned.injEq, true_and] at h
        subst h
        refine ⟨by simp, [], [.xSemaphoreTake], by simp, rfl, rfl, rfl, rfl, by simp,
          by simp [our_got_ips], by simp, ?_⟩
        intro s0 hs0
        rw [hs] at hs0
        cases hs0
        refine ⟨_, rfl, rfl, fun _ => ⟨?_, rfl⟩⟩
        simp only [our_got_ips, List.countP_nil]
        omega
      · simp at h
  | cons e rest ih =>
    simp only [xSemaphoreTake_with] at h
    cases hs : w.s_semph_get_ip_addrs with
    | none => simp [hs] at h
    | some s =>
      simp only [hs] at h
      split at h
      · next hpos =>
        simp only [Outcome.returned.injEq, true_and] at h
        subst h
        refine ⟨by simp, [], [.xSemaphoreTake], by simp, rfl, rfl, rfl, rfl, by simp,
          by simp [our_got_ips], by simp, ?_⟩
        intro s0 hs0
        rw [hs] at hs0
        cases hs0
        refine ⟨_, rfl, rfl, fun _ => ⟨?_, rfl⟩⟩
        simp only [our_got_ips, List.countP_nil]
        omega
      · next hzero =>
        obtain ⟨_, w0, hd, ht⟩ := bind_eq_returned h
        obtain ⟨s1, ex0, hw0, hm0, hc0, ha0, hn0, hl0, he0, hcalls0, hh0, hg0⟩ :=
          dispatch_returned e _ w0 s rfl hd
        obtain ⟨_, pre, ex, hpre, ha, hn, hl, hcalls, htk, hgv, hh, hsem⟩ := ih w0 ht
        refine ⟨by simp, e :: pre, ex0 ++ ex, ?_, ?_, ?_, ?_, ?_, ?_, ?_, ?_, ?_⟩
        · rw [hpre]; rfl
        · rw [ha, ha0]
        · rw [hn, hn0]
        · rw [hl, hl0]
        · rw [hcalls, hcalls0, List.append_assoc]
        · rw [List.count_append, htk]
          have : ex0.count .xSemaphoreTake = 0 := by
            apply List.count_eq_zero_of_not_mem
            intro hmem
            rcases hh0 _ hmem with h1 | h1 <;> cases h1
          omega
        · rw [List.count_append, hgv, hg0]
          simp only [our_got_ips, List.countP_cons, List.countP_nil]
          omega
        · intro c hc
          rcases List.mem_append.mp hc with h1 | h1
          · exact Or.inl (hh0 c h1)
          · exact hh c h1
        · intro s0 hs0
          rw [hs] at hs0
          cases hs0
          obtain ⟨s2, hw2, hm2, hq2⟩ := hsem s1 hw0
          refine ⟨s2, hw2, by rw [hm2, hm0], ?_⟩
          intro hpos
          obtain ⟨e2, e3⟩ := hq2 (by rw [hm0]; exact hpos)
          have hz : s.uxCount = 0 := by omega
          rw [hz] at hc0
          simp only [hpos, if_true, Nat.zero_add] at hc0
          have : our_got_ips (e :: pre) = our_got_ips [e] + our_got_ips pre := by
            simp only [our_got_ips, List.countP_cons, List.countP_nil]
            omega
          have hle : our_got_ips [e] ≤ 1 := by
            simp only [our_got_ips, List.countP_cons, List.countP_nil]
            split <;> omega
          constructor <;> omega

/-- A wait loop that returns has made as many takes as the loop bound asks
for, whatever the fuel; with at least one iteration the handle was not `NULL`. -/
theorem wait_loop_returned (fuel : Nat) (i : Int) (w w1 : World)
    (h : wait_loop fuel i w = .returned () w1) :
    Waited (w.s_active_interfaces - i).toNat w.events w w1 ∧
    (i < w.s_active_interfaces → w.s_semph_get_ip_addrs ≠ none) := by
  induction fuel generalizing i w with
  | zero =>
    simp only [wait_loop] at h
    split at h
    · simp at h
    · next hlt =>
      simp only [Outcome.returned.injEq, true_and] at h
      subst h
      have hk : (w.s_active_interfaces - i).toNat = 0 := by omega
      rw [hk]
      exact ⟨Waited_refl w, fun hc => absurd hc hlt⟩
  | succ fuel ih =>
    simp only [wait_loop] at h
    split at h
    · next hlt =>
      obtain ⟨_, w0, ht, hrest⟩ := bind_eq_returned h
      obtain ⟨hne, hw0⟩ := xSemaphoreTake_with_returned w.events w w0 ht
      obtain ⟨hw1, _⟩ := ih (i + 1) w0 hrest
      have ha : w0.s_active_interfaces = w.s_active_interfaces := by
        obtain ⟨_, _, _, ha, _⟩ := hw0
        exact ha
      rw [ha] at hw1
      have hk : (w.s_active_interfaces - i).toNat =
          1 + (w.s_active_interfaces - (i + 1)).toNat := by omega
      rw [hk]
      exact ⟨Waited_trans hw0 hw1, fun _ => hne⟩
    · next hlt =>
      simp only [Outcome.returned.injEq, true_and] at h
      subst h
      have hk : (w.s_active_interfaces - i).toNat = 0 := by omega
      rw [hk]
      exact ⟨Waited_refl w, fun hc => absurd hc hlt⟩

theorem dispatch_ne_nofuel (e : Event) (w : World) : dispatch e w ≠ .nofuel := by
  cases e with
  | got_ip d =>
    simp only [dispatch, on_got_ip_eq]
    split
    · split <;> simp
    · simp
  | sta_disconnected err =>
    simp only [dispatch, on_wifi_disconnect, sdk_returning, bind_apply, bind_returned]
    split
    · simp
    · rw [ESP_ERROR_CHECK_pure]
      split <;> simp

theorem xSemaphoreTake_with_ne_nofuel (evs : List Event) (w : World) :
    xSemaphoreTake_with evs w ≠ .nofuel := by
  induction evs generalizing w with
  | nil =>
    simp only [xSemaphoreTake_with]
    split
    · simp
    · split <;> simp
  | cons e rest ih =>
    simp only [xSemaphoreTake_with]
    split
    · simp
    · split
      · simp
      · cases hd : dispatch e { w with events := rest } with
        | returned a w0 => simpa using ih w0
        | aborted => simp
        | never_returns => simp
        | nofuel => exact absurd hd (dispatch_ne_nofuel e _)

/-- The fuel `example_connect` gives its wait loop is enough. -/
theorem wait_loop_ne_nofuel (fuel : Nat) (i : Int) (w : World)
    (hf : (w.s_active_interfaces - i).toNat ≤ fuel) : wait_loop fuel i w ≠ .nofuel := by
  induction fuel generalizing i w with
  | zero =>
    simp only [wait_loop]
    split
    · omega
    · simp
  | succ fuel ih =>
    simp only [wait_loop]
    split
    · next hlt =>
      cases ht : xSemaphoreTake w with
      | returned a w0 =>
        simp only [bind_returned]
        have ha : w0.s_active_interfaces = w.s_active_interfaces := by
          obtain ⟨_, _, _, _, ha, _⟩ := xSemaphoreTake_with_returned w.events w w0 ht
          exact ha
        apply ih
        rw [ha]
        omega
      | aborted => simp
      | never_returns => simp
      | nofuel => exact absurd ht (xSemaphoreTake_with_ne_nofuel _ _)
    · simp

theorem print_loop_cons (env : Env) (n : Netif) (rest : List Netif) (w : World) :
    print_loop env (n :: rest) w =
      if is_our_netif TAG n.desc = true then
        if env.result (.esp_netif_get_ip_info n.handle) = ESP_OK then
          print_loop env rest { w with calls := w.calls ++ [.esp_netif_get_ip_info n.handle] }
        else .aborted
      else print_loop env rest w := by
  by_cases hour : is_our_netif TAG n.desc = true
  · by_cases hok : env.result (.esp_netif_get_ip_info n.handle) = ESP_OK
    · simp [print_loop, hour, hok, ESP_ERROR_CHECK_sdk]
    · simp [print_loop, hour, hok, ESP_ERROR_CHECK_sdk]
  · simp [print_loop, hour]

theorem print_loop_returned (env : Env) (l : List Netif) (w w1 : World)
    (h : print_loop env l w = .returned () w1) :
    (∀ n ∈ l, is_our_netif TAG n.desc = true →
        env.result (.esp_netif_get_ip_info n.handle) = ESP_OK) ∧
    w1 = { w with calls := w.calls ++ print_calls l } := by
  induction l generalizing w with
  | nil =>
    simp only [print_loop, pure_apply, Outcome.returned.injEq, true_and] at h
    subst h
    simp [print_calls]
  | cons n rest ih =>
    rw [print_loop_cons] at h
    by_cases hour : is_our_netif TAG n.desc = true
    · rw [if_pos hour] at h
      split at h
      · next hok =>
        obtain ⟨hall, hw1⟩ := ih _ h
        constructor
        · intro m hm hmo
          rcases List.mem_cons.mp hm with rfl | hm
          · exact hok
          · exact hall m hm hmo
        · rw [hw1]
          simp [print_calls, hour]
      · simp at h
    · rw [if_neg hour] at h
      obtain ⟨hall, hw1⟩ := ih _ h
      constructor
      · intro m hm hmo
        rcases List.mem_cons.mp hm with rfl | hm
        · exact absurd hmo hour
        · exact hall m hm hmo
      · rw [hw1]
        simp [print_calls, hour]

theorem print_loop_ne_nofuel (env : Env) (l : List Netif) (w : World) :
    print_loop env l w ≠ .nofuel := by
  induction l generalizing w with
  | nil => simp [print_loop]
  | cons n rest ih =>
    rw [print_loop_cons]
    split
    · split
      · exact ih _
      · simp
    · exact ih _

/-- The guard of lines 101-106 returns `ESP_ERR_INVALID_STATE` in the state it
was called in. -/
theorem example_connect_guarded (cfg : Config) (env : Env) (w : World)
    (hg : cfg.EXAMPLE_DO_CONNECT = true ∧ w.s_semph_get_ip_addrs ≠ none) :
    example_connect cfg env w = .returned ESP_ERR_INVALID_STATE w := by
  simp [example_connect, getW, hg.1, hg.2]

/-- Past the guard, `example_connect` is `start`, the registration of the
shutdown handler, the wait loop and the loop over the netifs. -/
theorem example_connect_open (cfg : Config) (env : Env) (w : World)
    (hg : ¬ (cfg.EXAMPLE_DO_CONNECT = true ∧ w.s_semph_get_ip_addrs ≠ none)) :
    example_connect cfg env w =
      if (∀ c ∈ wifi_start_checked, env.result c = ESP_OK) ∧
          env.result .esp_register_shutdown_handler = ESP_OK then
        (wait_loop (w.s_active_interfaces + 1).toNat 0 (world_before_wait env w)).bind
          (fun _ w1 => (print_loop env w1.netifs w1).bind (fun _ w2 => .returned ESP_OK w2))
      else .aborted := by
  by_cases h1 : ∀ c ∈ wifi_start_checked, env.result c = ESP_OK
  · by_cases h2 : env.result .esp_register_shutdown_handler = ESP_OK
    · rw [if_pos ⟨h1, h2⟩]
      simp only [example_connect, getW, bind_apply, bind_returned, if_neg hg, start_eq, if_pos h1,
        ESP_ERROR_CHECK_sdk, h2, if_true]
      rfl
    · rw [if_neg (fun hc => h2 hc.2)]
      simp only [example_connect, getW, bind_apply, bind_returned, if_neg hg, start_eq, if_pos h1,
        ESP_ERROR_CHECK_sdk, h2, if_false, bind_aborted]
  · rw [if_neg (fun hc => h1 hc.1)]
    simp only [example_connect, getW, bind_apply, bind_returned, if_neg hg, start_eq, if_neg h1,
      bind_aborted]

/-- What a run of `example_connect` that gets past the guard and returns has
done. -/
theorem example_connect_returned (cfg : Config) (env : Env) (w w2 : World) (r : esp_err_t)
    (hg : ¬ (cfg.EXAMPLE_DO_CONNECT = true ∧ w.s_semph_get_ip_addrs ≠ none))
    (h : example_connect cfg env w = .returned r w2) :
    r = ESP_OK ∧
    (∀ c ∈ wifi_start_checked, env.result c = ESP_OK) ∧
    env.result .esp_register_shutdown_handler = ESP_OK ∧
    ∃ w1, Waited (w.s_active_interfaces + 1).toNat w.events (world_before_wait env w) w1 ∧
      (0 < w.s_active_interfaces + 1 → env.sem_alloc = true) ∧
      (∀ n ∈ w1.netifs, is_our_netif TAG n.desc = true →
        env.result (.esp_netif_get_ip_info n.handle) = ESP_OK) ∧
      w2 = { w1 with calls := w1.calls ++ print_calls w1.netifs } := by
  rw [example_connect_open cfg env w hg] at h
  split at h
  · next hc =>
    obtain ⟨_, w1, hwait, hrest⟩ := bind_eq_returned h
    obtain ⟨_, w3, hprint, hret⟩ := bind_eq_returned hrest
    simp only [Outcome.returned.injEq] at hret
    obtain ⟨hr, hw⟩ := hret
    subst hw
    obtain ⟨hW, hne⟩ := wait_loop_returned _ _ _ _ hwait
    obtain ⟨hall, hw3⟩ := print_loop_returned env _ _ _ hprint
    refine ⟨hr.symm, hc.1, hc.2, w1, ?_, ?_, hall, hw3⟩
    · have : ((world_before_wait env w).s_active_interfaces - 0).toNat =
          (w.s_active_interfaces + 1).toNat := by
        simp [world_before_wait, world_after_start]
      rw [this] at hW
      exact hW
    · intro hpos
      have := hne (by simpa [world_before_wait, world_after_start] using hpos)
      by_contra hal
      apply this
      simp [world_before_wait, world_after_start, hal]
  · simp at h

/-- The model never runs out of fuel in `example_connect`. -/
theorem example_connect_ne_nofuel (cfg : Config) (env : Env) (w : World) :
    example_connect cfg env w ≠ .nofuel := by
  by_cases hg : cfg.EXAMPLE_DO_CONNECT = true ∧ w.s_semph_get_ip_addrs ≠ none
  · rw [example_connect_guarded cfg env w hg]; simp
  · rw [example_connect_open cfg env w hg]
    split
    · cases hw : wait_loop (w.s_active_interfaces + 1).toNat 0 (world_before_wait env w) with
      | returned a w1 =>
        simp only [bind_returned]
        cases hp : print_loop env w1.netifs w1 with
        | returned a w2 => simp
        | aborted => simp
        | never_returns => simp
        | nofuel => exact absurd hp (print_loop_ne_nofuel env _ _)
      | aborted => simp
      | never_returns => simp
      | nofuel =>
        exfalso
        refine wait_loop_ne_nofuel _ _ _ ?_ hw
        simp [world_before_wait, world_after_start]
    · simp

/-! ## The session: connect, wait, disconnect -/

theorem init_not_guarded (cfg : Config) (netifs : List Netif) (evs : List Event) :
    ¬ (cfg.EXAMPLE_DO_CONNECT = true ∧ (init_world netifs evs).s_semph_get_ip_addrs ≠ none) := by
  simp [init_world]

theorem to_UBaseType_of_small (x : Int) (h0 : 0 ≤ x) (h1 : x < 2 ^ 31) :
    to_UBaseType x = x.toNat := by
  unfold to_UBaseType
  rw [Int.emod_eq_of_lt h0 (by omega)]

/-- The balance of the semaphore over a run of `example_connect` that gets past
the guard and returns. -/
theorem example_connect_balance (cfg : Config) (env : Env) (w w1 : World) (r : esp_err_t)
    (hg : ¬ (cfg.EXAMPLE_DO_CONNECT = true ∧ w.s_semph_get_ip_addrs ≠ none))
    (h0 : 0 ≤ w.s_active_interfaces) (hmax : w.s_active_interfaces < 2 ^ 31 - 1)
    (h : example_connect cfg env w = .returned r w1) :
    ∃ pre extra,
      w.events = pre ++ w1.events ∧
      w1.s_active_interfaces = w.s_active_interfaces + 1 ∧
      w1.calls = w.calls ++ wifi_start_calls ++
        [.xSemaphoreCreateCounting (w.s_active_interfaces + 1).toNat 0,
         .esp_register_shutdown_handler] ++ extra ++ print_calls w1.netifs ∧
      extra.count .xSemaphoreTake = (w.s_active_interfaces + 1).toNat ∧
      extra.count .xSemaphoreGive = our_got_ips pre ∧
      (∀ c ∈ extra, handler_call c ∨ c = .xSemaphoreTake) ∧
      our_got_ips pre = (w.s_active_interfaces + 1).toNat ∧
      (w.s_active_interfaces + 1).toNat ≤ got_ips pre ∧
      w1.s_semph_get_ip_addrs =
        some { uxMaxCount := (w.s_active_interfaces + 1).toNat, uxCount := 0 } := by
  obtain ⟨_, _, _, wm, hW, halloc, _, hw1⟩ := example_connect_returned cfg env w w1 r hg h
  obtain ⟨pre, extra, hev, ha, _, _, hcalls, htk, hgv, hhc, hsem⟩ := hW
  have hal : env.sem_alloc = true := halloc (by omega)
  have hN : to_UBaseType (w.s_active_interfaces + 1) = (w.s_active_interfaces + 1).toNat :=
    to_UBaseType_of_small _ (by omega) (by omega)
  have hs0 : (world_before_wait env w).s_semph_get_ip_addrs =
      some { uxMaxCount := (w.s_active_interfaces + 1).toNat, uxCount := 0 } := by
    simp [world_before_wait, world_after_start, hal, hN]
  obtain ⟨s1, hs1, hm1, hq⟩ := hsem _ hs0
  have hpos : 0 < (w.s_active_interfaces + 1).toNat := by omega
  obtain ⟨hq1, hq2⟩ := hq hpos
  simp only [Nat.zero_add, Nat.zero_sub] at hq1 hq2
  have hle : our_got_ips pre ≤ got_ips pre := by
    unfold our_got_ips got_ips
    apply List.countP_mono_left
    intro e _ he
    cases e with
    | got_ip d => rfl
    | sta_disconnected c => simp [is_our_got_ip] at he
  subst hw1
  refine ⟨pre, extra, hev, ?_, ?_, htk, hgv, hhc, by omega, by omega, ?_⟩
  · rw [ha]; rfl
  · show wm.calls ++ print_calls wm.netifs = _
    rw [hcalls]
    simp [world_before_wait, world_after_start, hN, List.append_assoc]
  · show wm.s_semph_get_ip_addrs = _
    rw [hs1]
    cases s1 with
    | mk m c =>
      simp only at hm1 hq2
      rw [hm1, hq2]

/-- C2, as amended: `on_got_ip` gives the semaphore once for a got-IP event whose
netif passes `is_our_netif(TAG, ·)` (the count goes up by one unless it is at
its maximum) and does nothing for a got-IP event of another netif.  A run of
`example_connect` that gets past the guard with `s_active_interfaces` at a
value from 0 to `INT_MAX - 1` and returns has created the semaphore with
maximum count N = `s_active_interfaces` (after the increment) and initial
count 0, has taken it exactly N times in the wait loop, and the event loop has
delivered exactly N accepted got-IP events (so at least N got-IP events), one
give each, while it waited (the only other calls made meanwhile are the
reconnects of the disconnect handler); the semaphore is back at count 0. -/
theorem example_connect_waits (cfg : Config) (env : Env) (w w1 : World) (r : esp_err_t)
    (hg : ¬ (cfg.EXAMPLE_DO_CONNECT = true ∧ w.s_semph_get_ip_addrs ≠ none))
    (h0 : 0 ≤ w.s_active_interfaces) (hmax : w.s_active_interfaces < 2 ^ 31 - 1)
    (h : example_connect cfg env w = .returned r w1) :
    (∀ (event : ip_event_got_ip_t) (w0 : World) (s : Semaphore),
        w0.s_semph_get_ip_addrs = some s →
        on_got_ip event w0 =
          if is_our_netif TAG event.esp_netif.desc = true then
            .returned ()
              { w0 with
                s_ip_addr := event.ip,
                s_semph_get_ip_addrs :=
                  some (if s.uxCount < s.uxMaxCount then { s with uxCount := s.uxCount + 1 }
                        else s),
                calls := w0.calls ++ [.xSemaphoreGive] }
          else .returned () w0) ∧
    ∃ pre extra,
      w.events = pre ++ w1.events ∧
      w1.s_active_interfaces = w.s_active_interfaces + 1 ∧
      w1.calls = w.calls ++ wifi_start_calls ++
        [.xSemaphoreCreateCounting (w.s_active_interfaces + 1).toNat 0,
         .esp_register_shutdown_handler] ++ extra ++ print_calls w1.netifs ∧
      extra.count .xSemaphoreTake = (w.s_active_interfaces + 1).toNat ∧
      extra.count .xSemaphoreGive = our_got_ips pre ∧
      (∀ c ∈ extra, handler_call c ∨ c = .xSemaphoreTake) ∧
      our_got_ips pre = (w.s_active_interfaces + 1).toNat ∧
      (w.s_active_interfaces + 1).toNat ≤ got_ips pre ∧
      w1.s_semph_get_ip_addrs =
        some { uxMaxCount := (w.s_active_interfaces + 1).toNat, uxCount := 0 } := by
  constructor
  · intro event w0 s hs
    rw [on_got_ip_eq, hs]
  · exact example_connect_balance cfg env w w1 r hg h0 hmax h

/-- An instance of the statement above: from the initial state with one
got-IP event of the station netif pending, `example_connect` returns, having
consumed that event. -/
theorem example_connect_waits_witness :
    example_connect ⟨false⟩ env_ok (init_world [] [sta_got_ip]) = .returned ESP_OK w_connected ∧
    ∃ pre extra,
      (init_world [] [sta_got_ip]).events = pre ++ w_connected.events ∧
      w_connected.s_active_interfaces = (init_world [] [sta_got_ip]).s_active_interfaces + 1 ∧
      w_connected.calls = (init_world [] [sta_got_ip]).calls ++ wifi_start_calls ++
        [.xSemaphoreCreateCounting ((init_world [] [sta_got_ip]).s_active_interfaces + 1).toNat 0,
         .esp_register_shutdown_handler] ++ extra ++ print_calls w_connected.netifs ∧
      extra.count .xSemaphoreTake = ((init_world [] [sta_got_ip]).s_active_interfaces + 1).toNat ∧
      extra.count .xSemaphoreGive = our_got_ips pre ∧
      (∀ c ∈ extra, handler_call c ∨ c = .xSemaphoreTake) ∧
      our_got_ips pre = ((init_world [] [sta_got_ip]).s_active_interfaces + 1).toNat ∧
      ((init_world [] [sta_got_ip]).s_active_interfaces + 1).toNat ≤ got_ips pre ∧
      w_connected.s_semph_get_ip_addrs =
        some { uxMaxCount := ((init_world [] [sta_got_ip]).s_active_interfaces + 1).toNat,
               uxCount := 0 } :=
  ⟨by decide!,
    (example_connect_waits ⟨false⟩ env_ok (init_world [] [sta_got_ip]) w_connected ESP_OK
      (init_not_guarded _ _ _) (by decide) (by decide) (by decide!)).2⟩

/-- C2, on the code: in the state in which `example_connect` waits (semaphore
at count 0 of at most 1), a got-IP event of the netif "eth" delivered to
`on_got_ip` leaves the state, and so the count of the semaphore, as it was; and
`example_connect` with that event as the only one pending stays blocked. -/
theorem on_got_ip_ignores_other_netif :
    (world_before_wait env_ok (init_world [eth_netif] [])).s_semph_get_ip_addrs =
      some { uxMaxCount := 1, uxCount := 0 } ∧
    on_got_ip eth_got_ip (world_before_wait env_ok (init_world [eth_netif] [])) =
      .returned () (world_before_wait env_ok (init_world [eth_netif] [])) ∧
    example_connect ⟨false⟩ env_ok (init_world [eth_netif] [.got_ip eth_got_ip]) =
      .never_returns := by
  refine ⟨by decide!, by decide!, by decide!⟩

/-- C6: `get_example_netif` returns `NULL` in the initial state; after
`example_connect` has returned `ESP_OK` from the initial state it returns the
pointer that `esp_netif_create_wifi` returned in `wifi_start`, a call that was
made; and it returns in the state it was called in. -/
theorem get_example_netif_spec (cfg : Config) (env : Env) (netifs : List Netif)
    (evs : List Event) (w1 : World)
    (h : example_connect cfg env (init_world netifs evs) = .returned ESP_OK w1) :
    get_example_netif (init_world netifs evs) = .returned none (init_world netifs evs) ∧
    get_example_netif w1 = .returned env.create_wifi w1 ∧
    SdkCall.esp_netif_create_wifi (asprintf_colon TAG DEFAULT_WIFI_STA_if_desc) ∈ w1.calls ∧
    esp_netif_create_wifi env (asprintf_colon TAG DEFAULT_WIFI_STA_if_desc)
        { init_world netifs evs with calls := [.esp_wifi_init] } =
      .returned env.create_wifi
        { init_world (netifs_after_create env netifs) evs with
          calls := [.esp_wifi_init,
            .esp_netif_create_wifi (asprintf_colon TAG DEFAULT_WIFI_STA_if_desc)] } ∧
    (∀ w : World, get_example_netif w = .returned w.s_example_esp_netif w) := by
  obtain ⟨_, _, _, wm, hW, _, _, hw1⟩ :=
    example_connect_returned cfg env _ w1 ESP_OK (init_not_guarded cfg netifs evs) h
  obtain ⟨pre, extra, _, _, hn, _, hcalls, _⟩ := hW
  subst hw1
  refine ⟨rfl, ?_, ?_, ?_, fun _ => rfl⟩
  · show Outcome.returned wm.s_example_esp_netif _ = _
    rw [hn]
    rfl
  · show _ ∈ wm.calls ++ _
    rw [hcalls]
    simp [world_before_wait, world_after_start, init_world, wifi_start_calls]
  · simp only [esp_netif_create_wifi, init_world, netifs_after_create]
    cases env.create_wifi <;> rfl

/-- An instance of the statement above: on `env_ok`, where
`esp_netif_create_wifi` returns the address 7, `get_example_netif` returns 7
after the connect. -/
theorem get_example_netif_spec_witness :
    example_connect ⟨false⟩ env_ok (init_world [] [sta_got_ip]) = .returned ESP_OK w_connected ∧
    get_example_netif w_connected = .returned (some 7) w_connected :=
  ⟨by decide!,
    (get_example_netif_spec ⟨false⟩ env_ok [] [sta_got_ip] w_connected (by decide!)).2.1⟩

/-- C7, as amended: after an `example_connect` that returned from the initial
state, an `example_disconnect` that returns `ESP_OK` leaves the semaphore
handle `NULL` and `s_active_interfaces` at 0, and leaves `s_ip_addr` as the
connect left it; `get_example_netif` returns `NULL` when `esp_wifi_stop` did not
report `ESP_ERR_WIFI_NOT_INIT`, and still returns the pointer of the session
when it did. -/
theorem connect_disconnect_spec (cfg : Config) (env1 env2 : Env) (netifs : List Netif)
    (evs : List Event) (r : esp_err_t) (w1 w2 : World)
    (h1 : example_connect cfg env1 (init_world netifs evs) = .returned r w1)
    (h2 : example_disconnect env2 w1 = .returned ESP_OK w2) :
    w2.s_semph_get_ip_addrs = none ∧
    w2.s_active_interfaces = 0 ∧
    w2.s_ip_addr = w1.s_ip_addr ∧
    (env2.result .esp_wifi_stop ≠ ESP_ERR_WIFI_NOT_INIT →
      get_example_netif w2 = .returned none w2) ∧
    (env2.result .esp_wifi_stop = ESP_ERR_WIFI_NOT_INIT →
      get_example_netif w2 = .returned env1.create_wifi w2) := by
  obtain ⟨pre, extra, _, ha, _, _, _, _, _, _, hsem⟩ :=
    example_connect_balance cfg env1 _ w1 r (init_not_guarded cfg netifs evs)
      (by simp [init_world]) (by simp [init_world]) h1
  obtain ⟨_, _, _, wm, hW, _, _, hw1⟩ :=
    example_connect_returned cfg env1 _ w1 r (init_not_guarded cfg netifs evs) h1
  have hnetif : w1.s_example_esp_netif = env1.create_wifi := by
    obtain ⟨_, _, _, _, hn, _⟩ := hW
    subst hw1
    show wm.s_example_esp_netif = _
    rw [hn]
    rfl
  have hopen : w1.s_semph_get_ip_addrs ≠ none := by rw [hsem]; simp
  have ha1 : w1.s_active_interfaces = 1 := by rw [ha]; simp [init_world]
  rw [example_disconnect_open env2 w1 hopen] at h2
  obtain ⟨_, w3, hstop, hrest⟩ := bind_eq_returned h2
  split at hrest
  · simp only [Outcome.returned.injEq, true_and] at hrest
    subst hrest
    rcases wifi_stop_cases env2 _ w3 hstop with ⟨hni, hw3⟩ | ⟨hok, hw3⟩
    · subst hw3
      refine ⟨rfl, ?_, rfl, fun hc => absurd hni hc, fun _ => ?_⟩
      · show w1.s_active_interfaces - 1 = 0
        omega
      · show Outcome.returned w1.s_example_esp_netif _ = _
        rw [hnetif]
    · subst hw3
      refine ⟨rfl, ?_, rfl, fun _ => rfl, fun hc => ?_⟩
      · show w1.s_active_interfaces - 1 = 0
        omega
      · rw [hok] at hc
        exact absurd hc (by decide)
  · simp at hrest

/-- An instance of the statement above: connect and disconnect on
`env_ok`. -/
theorem connect_disconnect_spec_witness :
    example_connect ⟨false⟩ env_ok (init_world [] [sta_got_ip]) = .returned ESP_OK w_connected ∧
    example_disconnect env_ok w_connected = .returned ESP_OK w_disconnected ∧
    w_disconnected.s_semph_get_ip_addrs = none ∧
    w_disconnected.s_active_interfaces = 0 ∧
    w_disconnected.s_ip_addr = w_connected.s_ip_addr ∧
    get_example_netif w_disconnected = .returned none w_disconnected :=
  ⟨by decide!, by decide!,
    (connect_disconnect_spec ⟨false⟩ env_ok env_ok [] [sta_got_ip] ESP_OK w_connected
      w_disconnected (by decide!) (by decide!)).1,
    rfl, rfl, rfl⟩

/-- C7, on the code: after a connect from the initial state, an
`example_disconnect` during which `esp_wifi_stop` reports
`ESP_ERR_WIFI_NOT_INIT` returns `ESP_OK`, and `get_example_netif` then returns
the address 7 of the station netif, not `NULL`; and after a disconnect on
which every call succeeds, `s_ip_addr` still holds the address 10.0.0.2 that
`on_got_ip` stored during the connect, not its initial value 0. -/
theorem disconnect_keeps_netif :
    example_connect ⟨false⟩ env_ok (init_world [] [sta_got_ip]) = .returned ESP_OK w_connected ∧
    example_disconnect env_stop_not_init w_connected = .returned ESP_OK w_disconnected_early ∧
    get_example_netif w_disconnected_early = .returned (some 7) w_disconnected_early ∧
    example_disconnect env_ok w_connected = .returned ESP_OK w_disconnected ∧
    w_disconnected.s_ip_addr = 0x0A000002 ∧
    (init_world [] [sta_got_ip]).s_ip_addr = 0 := by
  refine ⟨by decide!, by decide!, rfl, by decide!, rfl, rfl⟩

/-! ## The lookup by description -/

end WifiManager
